import Mathlib

/-!
Verification development for `generate_icon.py`.

The script has two components:
- `create_claudius_icon` (renderer): builds a square RGBA image by drawing a
  vertical gradient, two ring outlines, a glyph with a drop shadow, and 24
  decorative dots.
- `create_icns` (exporter): resizes the rendered image to a fixed list of
  resolutions, saves the copies into a staging directory, invokes the
  `iconutil` packaging tool, and removes the staging directory.

The embedding below represents the renderer's output as the exact sequence of
drawing commands issued to the PIL draw object together with the canvas
dimensions; the horizontal-line commands of the background loop are also given
pixel-level semantics.  The exporter is modelled as a state transformer over a
small filesystem model, parameterised by the exit code of the external
packaging command.
-/

/-- RGBA color, one value per 8-bit channel.  PIL treats an RGB triple used as
a fill on an RGBA image as fully opaque, so a 3-tuple fill in the source is
embedded with alpha 255. -/
abbrev Color := Nat × Nat × Nat × Nat

/-- First candidate font file tried by the source
("/System/Library/Fonts/Times.ttc", line 62). -/
def timesPath : String := "/System/Library/Fonts/Times.ttc"

/-- Second candidate font file tried by the source
("/System/Library/Fonts/Supplemental/Times New Roman.ttf", line 65). -/
def timesNewRomanPath : String := "/System/Library/Fonts/Supplemental/Times New Roman.ttf"

/-- A font object: either a truetype font loaded from a file path at a pixel
size (`ImageFont.truetype`), or the built-in default font
(`ImageFont.load_default`). -/
inductive Font where
  | truetype (path : String) (fontSize : Nat)
  | default
deriving DecidableEq

/-- The four corners returned by `draw.textbbox((0, 0), text, font)`. -/
structure BBox where
  x0 : Int
  y0 : Int
  x1 : Int
  y1 : Int
deriving DecidableEq

/-- Host environment the renderer depends on: which font files
`ImageFont.truetype` can load, and the bounding box the loaded font reports
for a string.  The script reads both from the filesystem. -/
structure Env where
  hasFont : String → Bool
  bbox : Font → String → BBox

/-- One drawing command issued to the PIL draw object.  `line` is
`draw.line([(x0, y0), (x1, y1)], fill)`; `ellipseOutline` is `draw.ellipse`
with an `outline` color and stroke `width`; `text` is `draw.text((x, y), s,
font, fill)`.  `dot` is the filled ellipse of the decorative-dot loop
(lines 91-98): the source passes the bounding box
`[x - r, y - r, x + r, y + r]` where `x = cx + cos(angleOverPi * pi) * dist`
and `y = cy + sin(angleOverPi * pi) * dist`; the constructor records the exact
center, angle (as a rational multiple of pi), distance and radius from which
those four real coordinates are formed. -/
inductive DrawOp where
  | line (x0 y0 x1 y1 : Int) (fill : Color)
  | ellipseOutline (x0 y0 x1 y1 : Int) (outline : Color) (width : Nat)
  | text (x y : Int) (s : String) (font : Font) (fill : Color)
  | dot (cx cy : Nat) (angleOverPi : ℚ) (dist radius : Nat) (fill : Color)
deriving DecidableEq

/-- The in-memory image: canvas dimensions from `Image.new('RGBA', (size,
size))` plus the ordered list of drawing commands applied to it. -/
structure Image where
  width : Nat
  height : Nat
  ops : List DrawOp
deriving DecidableEq

/-- Gold color, line 36 of the source. -/
def gold : Color := (212, 175, 55, 255)

/-- Darker gold color, line 37 of the source. -/
def dark_gold : Color := (180, 145, 35, 255)

/-- Color of gradient scanline `i` (lines 29-32): `int(88 + 40 * i / size)`,
`int(28 + 20 * i / size)`, `int(108 + 30 * i / size)`, alpha 255.  The `int`
truncation of the non-negative exact value is natural-number division. -/
def gradColor (size i : Nat) : Color :=
  (88 + 40 * i / size, 28 + 20 * i / size, 108 + 30 * i / size, 255)

/-- The background loop (lines 28-33): one full-width horizontal line per
scanline `i` in `range(size)`. -/
def gradientOps (size : Nat) : List DrawOp :=
  (List.range size).map fun (i : Nat) =>
    DrawOp.line 0 (i : Int) (size : Int) (i : Int) (gradColor size i)

/-- The two ring outlines (lines 40-56). -/
def ringOps (size : Nat) : List DrawOp :=
  let margin := size / 10
  let outer_border := size / 30
  let inner_border := size / 40
  let inner_margin := margin + outer_border + size / 50
  [DrawOp.ellipseOutline margin margin (size - margin) (size - margin) gold outer_border,
   DrawOp.ellipseOutline inner_margin inner_margin (size - inner_margin) (size - inner_margin)
     dark_gold inner_border]

/-- Font size requested by the source: `int(size * 0.55)` (line 60), the
truncation of the exact product. -/
def fontSizeOf (size : Nat) : Nat := 55 * size / 100

/-- `ImageFont.truetype(path, fontSize)` as a fallible operation: it succeeds
exactly when the environment can load the font file at `path`. -/
def trueTypeE (env : Env) (path : String) (fsz : Nat) : Except Unit Font :=
  if env.hasFont path then Except.ok (Font.truetype path fsz) else Except.error ()

/-- A `try ... except ...` block. -/
def catchE (x : Except Unit Font) (h : Unit → Except Unit Font) : Except Unit Font :=
  match x with
  | Except.ok v => Except.ok v
  | Except.error e => h e

/-- The font-resolution code of lines 59-69: an outer `try` whose body tries
`timesPath`, falls back to `timesNewRomanPath`, then to the default font;
the outer `except` also falls back to the default font. -/
def resolveFontE (env : Env) (size : Nat) : Except Unit Font :=
  catchE
    (catchE (trueTypeE env timesPath (fontSizeOf size))
      (fun _ =>
        catchE (trueTypeE env timesNewRomanPath (fontSizeOf size))
          (fun _ => Except.ok Font.default)))
    (fun _ => Except.ok Font.default)

/-- The font actually bound by lines 59-69 (the value of the `font` variable
after the chain; an unreachable error would also yield the default font). -/
def resolveFont (env : Env) (size : Nat) : Font :=
  match resolveFontE env size with
  | Except.ok f => f
  | Except.error _ => Font.default

/-- The glyph commands of lines 71-84: measure the bounding box of "C",
center it (with the fixed upward offset `size // 25`), draw the shadow copy
first at `(+ size // 60, + size // 60)`, then the main glyph in gold.
`Int.fdiv` is Python's floor division `//`. -/
def textOps (env : Env) (size : Nat) : List DrawOp :=
  let center : Int := (size / 2 : Nat)
  let font := resolveFont env size
  let b := env.bbox font ("C")
  let text_width := b.x1 - b.x0
  let text_height := b.y1 - b.y0
  let text_x := center - Int.fdiv text_width 2
  let text_y := center - Int.fdiv text_height 2 - ((size / 25 : Nat) : Int)
  let shadow_offset : Int := ((size / 60 : Nat) : Int)
  [DrawOp.text (text_x + shadow_offset) (text_y + shadow_offset) ("C") font (20, 20, 20, 200),
   DrawOp.text text_x text_y ("C") font gold]

/-- The decorative-dot loop of lines 87-98: 24 dots, angle
`(i / 24) * 2 * pi - pi / 2` (recorded as its rational multiple of pi),
distance `size // 2 - margin - size // 15`, radius `size // 80`, filled with
the darker gold.  The subtraction never underflows since
`size // 2 >= size // 10 + size // 15`. -/
def dotOps (size : Nat) : List DrawOp :=
  let center := size / 2
  let margin := size / 10
  let dot_radius := size / 80
  let dot_distance := size / 2 - margin - size / 15
  (List.range 24).map fun (i : Nat) =>
    DrawOp.dot center center ((i : ℚ) / 24 * 2 - 1 / 2) dot_distance dot_radius dark_gold

/-- `create_claudius_icon(size)` (lines 17-100), additionally parameterised by
the host environment the font chain reads: a `size` by `size` canvas receiving
the background lines, the two rings, the shadowed glyph, and the dots, in
source order. -/
def create_claudius_icon (env : Env) (size : Nat) : Image :=
  { width := size, height := size,
    ops := gradientOps size ++ ringOps size ++ textOps env size ++ dotOps size }

/-- A pixel buffer: color at integer coordinates (x, y). -/
def Pix := Int → Int → Color

/-- The transparent canvas created by `Image.new('RGBA', (size, size), (0, 0, 0, 0))`. -/
def blankPix : Pix := fun _ _ => (0, 0, 0, 0)

/-- Pixel semantics of a drawing command.  Only the horizontal width-1 lines
used by the background loop are rasterized (such a line from `(x0, y)` to
`(x1, y)` paints every pixel with that `y` and `x0 <= x <= x1`, endpoints
included); the ring, glyph and dot commands are kept as trace only and leave
the buffer unchanged here. -/
def applyOp (p : Pix) : DrawOp → Pix
  | DrawOp.line x0 y0 x1 y1 c =>
      fun a b => if b = y0 ∧ y0 = y1 ∧ x0 ≤ a ∧ a ≤ x1 then c else p a b
  | _ => p

/-- The pixel buffer after the background loop of lines 28-33 has run on the
fresh transparent canvas. -/
def backgroundPix (size : Nat) : Pix :=
  (gradientOps size).foldl applyOp blankPix

/-- Resampling filters used by the exporter (`Image.Resampling.LANCZOS`). -/
inductive Resampling where
  | lanczos
deriving DecidableEq

/-- An image value as the exporter sees it: the original source image (of some
dimensions) or the result of `img.resize((w, h), filter)` applied to a base
image.  Keeping the base makes it visible which image a resize was derived
from. -/
inductive Img where
  | src (width height : Nat)
  | resize (base : Img) (width height : Nat) (filter : Resampling)
deriving DecidableEq

/-- Width in pixels: `resize((w, h))` produces width `w`. -/
def Img.width : Img → Nat
  | Img.src w _ => w
  | Img.resize _ w _ _ => w

/-- Height in pixels: `resize((w, h))` produces height `h`. -/
def Img.height : Img → Nat
  | Img.src _ h => h
  | Img.resize _ _ h _ => h

/-- The fixed resolution list of line 105. -/
def sizes : List Nat := [16, 32, 64, 128, 256, 512, 1024]

/-- The save operations of the loop in lines 111-117, in order: for each
resolution, the base file `icon_<N>x<N>.png` holding the source resized to
`N` by `N`, and, when `N <= 512`, the file `icon_<N>x<N>@2x.png` holding the
source resized to `2N` by `2N`.  Both resizes start from `source_image`.
File names are relative to the staging directory; `create_icns` joins them. -/
def stagedSaves (source_image : Img) : List (String × Img) :=
  sizes.flatMap fun size =>
    ("icon_" ++ toString size ++ "x" ++ toString size ++ ".png",
      Img.resize source_image size size Resampling.lanczos)
    :: (if size ≤ 512 then
          [("icon_" ++ toString size ++ "x" ++ toString size ++ "@2x.png",
            Img.resize source_image (size * 2) (size * 2) Resampling.lanczos)]
        else [])

/-- Filesystem model: the set of existing directories and the log of written
files (most recent first). -/
structure FS where
  dirs : List String
  files : List (String × Img)
deriving DecidableEq

/-- `os.path.join` for a directory and a relative file name. -/
def pathJoin (a b : String) : String := a ++ "/" ++ b

/-- `os.makedirs(d, exist_ok=True)`: create the directory if absent. -/
def makedirs (fs : FS) (d : String) : FS :=
  if d ∈ fs.dirs then fs else { fs with dirs := d :: fs.dirs }

/-- `img.save(p)`: record the written file. -/
def saveFile (fs : FS) (p : String) (img : Img) : FS :=
  { fs with files := (p, img) :: fs.files }

/-- Whether path `p` is the directory `d` itself or lies underneath it. -/
def underDir (d p : String) : Bool := p == d || (d ++ "/").isPrefixOf p

/-- `shutil.rmtree(d)`: remove the directory and everything under it. -/
def rmtree (fs : FS) (d : String) : FS :=
  { dirs := fs.dirs.filter (fun x => !underDir d x),
    files := fs.files.filter (fun x => !underDir d x.1) }

/-- Python `str.replace(pat, rep)` on character lists: scan left to right,
replacing each non-overlapping occurrence of `pat`; the fuel argument (always
called with the length of the string) only bounds the recursion. -/
def replaceAllAux : Nat → List Char → List Char → List Char → List Char
  | 0, s, _, _ => s
  | Nat.succ fuel, s, pat, rep =>
    match s with
    | [] => []
    | c :: rest =>
      if !pat.isEmpty && pat.isPrefixOf (c :: rest) then
        rep ++ replaceAllAux fuel (List.drop (pat.length - 1) rest) pat rep
      else
        c :: replaceAllAux fuel rest pat rep

/-- Python `str.replace(pat, rep)`: replaces every occurrence of `pat`. -/
def strReplace (s pat rep : String) : String :=
  String.mk (replaceAllAux s.data.length s.data pat.data rep.data)

/-- Whether `pat` occurs as a contiguous substring of `s`. -/
def containsSub : List Char → List Char → Bool
  | [], pat => pat.isEmpty
  | c :: rest, pat => pat.isPrefixOf (c :: rest) || containsSub rest pat

/-- Whether `pat` occurs as a contiguous substring of `s`, on strings. -/
def strContains (s pat : String) : Bool := containsSub s.data pat.data

/-- Line 108: `iconset_path = output_path.replace('.icns', '.iconset')`. -/
def iconsetPathOf (output_path : String) : String :=
  strReplace output_path (".icns") (".iconset")

/-- Outcome of one `create_icns` run: the final filesystem, whether the
`subprocess.run(..., check=True)` call raised `CalledProcessError`, and the
command line that was invoked. -/
structure RunResult where
  fs : FS
  raised : Bool
  cmd : List String
deriving DecidableEq

/-- `create_icns(source_image, output_path)` (lines 103-123), parameterised by
the exit code of the external `iconutil` process and the initial filesystem:
derive the staging path, create the directory, save the 13 resized copies,
run `iconutil`; on exit code 0 remove the staging tree, otherwise the
`CalledProcessError` propagates and the removal is never reached. -/
def create_icns (source_image : Img) (output_path : String) (iconutilExit : Nat)
    (fs0 : FS) : RunResult :=
  let iconset_path := iconsetPathOf output_path
  let fs1 := makedirs fs0 iconset_path
  let fs2 := (stagedSaves source_image).foldl
    (fun fs e => saveFile fs (pathJoin iconset_path e.1) e.2) fs1
  let cmd := ["iconutil", "-c", "icns", iconset_path, "-o", output_path]
  if iconutilExit = 0 then
    { fs := rmtree fs2 iconset_path, raised := false, cmd := cmd }
  else
    { fs := fs2, raised := true, cmd := cmd }

/-! ## Helper lemmas -/

/-- Evaluating the background fold: after the first `k` scanlines have been
drawn, a pixel is the gradient color of its row when its row is below `k` and
its column lies in the painted span, and is untouched otherwise. -/
lemma backgroundFold_eval (size : Nat) :
    ∀ (k : Nat) (a b : Int),
      (((List.range k).map fun (i : Nat) =>
          DrawOp.line 0 (i : Int) (size : Int) (i : Int) (gradColor size i)).foldl
        applyOp blankPix) a b
        = if 0 ≤ b ∧ b < (k : Int) ∧ 0 ≤ a ∧ a ≤ (size : Int) then gradColor size b.toNat
          else (0, 0, 0, 0) := by
  intro k
  induction k with
  | zero =>
    intro a b
    simp only [List.range_zero, List.map_nil, List.foldl_nil]
    have h : ¬(0 ≤ b ∧ b < ((0 : Nat) : Int) ∧ 0 ≤ a ∧ a ≤ (size : Int)) := by omega
    rw [if_neg h]
    rfl
  | succ n ih =>
    intro a b
    rw [List.range_succ, List.map_append, List.foldl_append]
    simp only [List.map_cons, List.map_nil, List.foldl_cons, List.foldl_nil, applyOp,
      eq_self_iff_true, true_and]
    rw [ih]
    split_ifs <;>
      first
      | rfl
      | (exfalso; omega)
      | (have hbn : b.toNat = n := by omega
         rw [hbn])

/-- The truncated value one step before the end of a gradient ramp of span `c`
is within one division-rounding of the full span. -/
lemma interp_bottom (c size : Nat) (h : 0 < size) :
    c ≤ c * (size - 1) / size + (c / size + 1) := by
  have h1 : c * (size - 1) + c = c * size := by
    have h2 : size - 1 + 1 = size := Nat.succ_pred_eq_of_pos h
    calc c * (size - 1) + c = c * ((size - 1) + 1) := by ring
      _ = c * size := by rw [h2]
  calc c = c * size / size := (Nat.mul_div_cancel c h).symm
    _ = (c * (size - 1) + c) / size := by rw [h1]
    _ ≤ c * (size - 1) / size + (c / size + 1) := by
        rw [Nat.add_div h]
        split_ifs <;> omega

/-- Saving the staged files never touches the directory set. -/
lemma stageFold_dirs (d : String) :
    ∀ (l : List (String × Img)) (fs : FS),
      ((l.foldl (fun fs e => saveFile fs (pathJoin d e.1) e.2) fs)).dirs = fs.dirs := by
  intro l
  induction l with
  | nil => intro fs; rfl
  | cons e rest ih =>
    intro fs
    rw [List.foldl_cons, ih]
    rfl

/-- Each staged save appends exactly one file to the log. -/
lemma stageFold_files_length (d : String) :
    ∀ (l : List (String × Img)) (fs : FS),
      ((l.foldl (fun fs e => saveFile fs (pathJoin d e.1) e.2) fs)).files.length
        = l.length + fs.files.length := by
  intro l
  induction l with
  | nil => intro fs; simp
  | cons e rest ih =>
    intro fs
    rw [List.foldl_cons, ih]
    simp [saveFile]
    omega

/-- After `makedirs fs d`, the directory `d` exists. -/
lemma makedirs_mem (fs : FS) (d : String) : d ∈ (makedirs fs d).dirs := by
  unfold makedirs
  split_ifs with h
  · exact h
  · exact List.mem_cons_self d fs.dirs

/-- `makedirs` never touches the file log. -/
lemma makedirs_files (fs : FS) (d : String) : (makedirs fs d).files = fs.files := by
  unfold makedirs
  split_ifs <;> rfl

/-- After `rmtree fs d`, the directory `d` itself is gone. -/
lemma rmtree_dir_not_mem (fs : FS) (d : String) : d ∉ (rmtree fs d).dirs := by
  intro h
  have h2 := (List.mem_filter.mp h).2
  simp [underDir] at h2

/-- After `rmtree fs d`, no logged file lies at or under `d`. -/
lemma rmtree_files_not_under (fs : FS) (d : String) :
    ∀ f ∈ (rmtree fs d).files, underDir d f.1 = false := by
  intro f hf
  have h2 := (List.mem_filter.mp hf).2
  simpa using h2

/-- When the pattern occurs nowhere in the string, `str.replace` is the
identity, for any fuel. -/
lemma replaceAllAux_of_not_contains :
    ∀ (fuel : Nat) (s pat rep : List Char), containsSub s pat = false →
      replaceAllAux fuel s pat rep = s := by
  intro fuel
  induction fuel with
  | zero => intro s pat rep _; rfl
  | succ n ih =>
    intro s pat rep h
    cases s with
    | nil => rfl
    | cons c rest =>
      rw [containsSub] at h
      rw [Bool.or_eq_false_iff] at h
      have h1 : pat.isPrefixOf (c :: rest) = false := h.1
      have h2 : containsSub rest pat = false := h.2
      rw [replaceAllAux]
      rw [if_neg (by simp [h1])]
      rw [ih rest pat rep h2]

/-- `strReplace` is the identity when the pattern does not occur. -/
lemma strReplace_of_not_contains (s pat rep : String) (h : strContains s pat = false) :
    strReplace s pat rep = s := by
  unfold strReplace
  rw [replaceAllAux_of_not_contains s.data.length s.data pat.data rep.data h]

/-! ## Claim theorems -/

/-- C1: for the fixed resolution list 16..1024, `create_icns` writes into the
staging directory exactly the 7 base files `icon_NxN.png` and the 6 `@2x`
files for resolutions at most 512, 13 staged files in total, all saved
before the packaging command runs (the pre-packaging state is observed on
the failing-exit path, which returns it unchanged). -/
theorem create_icns_stages_thirteen_files (source_image : Img) (out : String) :
    (stagedSaves source_image).map Prod.fst =
      ["icon_16x16.png", "icon_16x16@2x.png", "icon_32x32.png", "icon_32x32@2x.png",
       "icon_64x64.png", "icon_64x64@2x.png", "icon_128x128.png", "icon_128x128@2x.png",
       "icon_256x256.png", "icon_256x256@2x.png", "icon_512x512.png", "icon_512x512@2x.png",
       "icon_1024x1024.png"]
    ∧ (["icon_16x16.png", "icon_16x16@2x.png", "icon_32x32.png", "icon_32x32@2x.png",
        "icon_64x64.png", "icon_64x64@2x.png", "icon_128x128.png", "icon_128x128@2x.png",
        "icon_256x256.png", "icon_256x256@2x.png", "icon_512x512.png", "icon_512x512@2x.png",
        "icon_1024x1024.png"] : List String).length = 13
    ∧ ((["icon_16x16.png", "icon_16x16@2x.png", "icon_32x32.png", "icon_32x32@2x.png",
         "icon_64x64.png", "icon_64x64@2x.png", "icon_128x128.png", "icon_128x128@2x.png",
         "icon_256x256.png", "icon_256x256@2x.png", "icon_512x512.png", "icon_512x512@2x.png",
         "icon_1024x1024.png"] : List String).filter (fun n => strContains n ("@2x"))).length = 6
    ∧ ((["icon_16x16.png", "icon_16x16@2x.png", "icon_32x32.png", "icon_32x32@2x.png",
         "icon_64x64.png", "icon_64x64@2x.png", "icon_128x128.png", "icon_128x128@2x.png",
         "icon_256x256.png", "icon_256x256@2x.png", "icon_512x512.png", "icon_512x512@2x.png",
         "icon_1024x1024.png"] : List String).filter (fun n => !strContains n ("@2x"))).length = 7
    ∧ ((create_icns source_image out 1 ⟨[], []⟩).fs).files.length = 13 := by
  refine ⟨rfl, by decide, by decide, by decide, ?_⟩
  simp only [create_icns]
  rw [if_neg (by omega)]
  rw [stageFold_files_length, makedirs_files]
  rfl

/-- C2: a non-zero exit of the packaging command propagates as a raised,
unhandled error and the staging directory is left behind; a zero exit raises
nothing and removes the staging directory together with everything under
it. -/
theorem create_icns_failure_and_cleanup (source_image : Img) (out : String) (code : Nat)
    (fs0 : FS) :
    (code ≠ 0 →
      (create_icns source_image out code fs0).raised = true
      ∧ iconsetPathOf out ∈ (create_icns source_image out code fs0).fs.dirs)
    ∧ (code = 0 →
      (create_icns source_image out code fs0).raised = false
      ∧ iconsetPathOf out ∉ (create_icns source_image out code fs0).fs.dirs
      ∧ ∀ f ∈ (create_icns source_image out code fs0).fs.files,
          underDir (iconsetPathOf out) f.1 = false) := by
  constructor
  · intro h
    simp only [create_icns]
    rw [if_neg h]
    refine ⟨rfl, ?_⟩
    show iconsetPathOf out ∈ (List.foldl _ (makedirs fs0 (iconsetPathOf out)) _).dirs
    rw [stageFold_dirs]
    exact makedirs_mem fs0 (iconsetPathOf out)
  · intro h
    simp only [create_icns]
    rw [if_pos h]
    exact ⟨rfl, rmtree_dir_not_mem _ _, rmtree_files_not_under _ _⟩

/-- C2 witness: with a concrete source image, destination and empty
filesystem, exit code 1 raises and keeps the staging directory, and exit
code 0 raises nothing and leaves no trace of it. -/
theorem create_icns_failure_and_cleanup_witness :
    ((1 : Nat) ≠ 0
     ∧ (create_icns (Img.src 2 2) ("/tmp/i.icns") 1 ⟨[], []⟩).raised = true
     ∧ iconsetPathOf ("/tmp/i.icns") ∈ (create_icns (Img.src 2 2) ("/tmp/i.icns") 1 ⟨[], []⟩).fs.dirs)
    ∧ ((0 : Nat) = 0
     ∧ (create_icns (Img.src 2 2) ("/tmp/i.icns") 0 ⟨[], []⟩).raised = false
     ∧ iconsetPathOf ("/tmp/i.icns") ∉ (create_icns (Img.src 2 2) ("/tmp/i.icns") 0 ⟨[], []⟩).fs.dirs
     ∧ ∀ f ∈ (create_icns (Img.src 2 2) ("/tmp/i.icns") 0 ⟨[], []⟩).fs.files,
         underDir (iconsetPathOf ("/tmp/i.icns")) f.1 = false) :=
  ⟨⟨by decide,
    (create_icns_failure_and_cleanup (Img.src 2 2) ("/tmp/i.icns") 1 ⟨[], []⟩).1 (by decide)⟩,
   ⟨by decide,
    (create_icns_failure_and_cleanup (Img.src 2 2) ("/tmp/i.icns") 0 ⟨[], []⟩).2 (by decide)⟩⟩

/-- C9: the staging path is the destination path with every occurrence of
".icns" replaced (anywhere in the string, not only a trailing extension);
when the destination contains no ".icns" at all, the staging path equals the
destination itself, so the packaging command receives the same path as both
input directory and output file. -/
theorem iconsetPathOf_replace_behavior (out : String) (source_image : Img) (code : Nat)
    (fs0 : FS) :
    iconsetPathOf ("a.icnsb.icns") = "a.iconsetb.iconset"
    ∧ (strContains out (".icns") = false →
        iconsetPathOf out = out
        ∧ (create_icns source_image out code fs0).cmd
            = ["iconutil", "-c", "icns", out, "-o", out]) := by
  constructor
  · decide
  · intro h
    have hid : iconsetPathOf out = out := strReplace_of_not_contains out (".icns") (".iconset") h
    refine ⟨hid, ?_⟩
    simp only [create_icns]
    split_ifs <;> simp [hid]

/-- C9 witness: a destination path without ".icns" stages into itself and the
packaging command's input directory and output file coincide. -/
theorem iconsetPathOf_replace_behavior_witness :
    strContains ("/tmp/AppIcon.img") (".icns") = false
    ∧ iconsetPathOf ("a.icnsb.icns") = "a.iconsetb.iconset"
    ∧ (iconsetPathOf ("/tmp/AppIcon.img") = "/tmp/AppIcon.img"
       ∧ (create_icns (Img.src 2 2) ("/tmp/AppIcon.img") 0 ⟨[], []⟩).cmd
           = ["iconutil", "-c", "icns", "/tmp/AppIcon.img", "-o", "/tmp/AppIcon.img"]) :=
  ⟨by decide,
   (iconsetPathOf_replace_behavior ("/tmp/AppIcon.img") (Img.src 2 2) 0 ⟨[], []⟩).1,
   (iconsetPathOf_replace_behavior ("/tmp/AppIcon.img") (Img.src 2 2) 0 ⟨[], []⟩).2 (by decide)⟩

/-- C10: every staged image, including every `@2x` variant, is produced by
resizing the original source image directly (never a previously downscaled
copy); base files are `N` by `N`, `@2x` files are `2N` by `2N`, every staged
image is square, and none exceeds 1024 by 1024. -/
theorem stagedSaves_resized_from_source (source_image : Img) :
    stagedSaves source_image =
      [("icon_16x16.png", Img.resize source_image 16 16 Resampling.lanczos),
       ("icon_16x16@2x.png", Img.resize source_image 32 32 Resampling.lanczos),
       ("icon_32x32.png", Img.resize source_image 32 32 Resampling.lanczos),
       ("icon_32x32@2x.png", Img.resize source_image 64 64 Resampling.lanczos),
       ("icon_64x64.png", Img.resize source_image 64 64 Resampling.lanczos),
       ("icon_64x64@2x.png", Img.resize source_image 128 128 Resampling.lanczos),
       ("icon_128x128.png", Img.resize source_image 128 128 Resampling.lanczos),
       ("icon_128x128@2x.png", Img.resize source_image 256 256 Resampling.lanczos),
       ("icon_256x256.png", Img.resize source_image 256 256 Resampling.lanczos),
       ("icon_256x256@2x.png", Img.resize source_image 512 512 Resampling.lanczos),
       ("icon_512x512.png", Img.resize source_image 512 512 Resampling.lanczos),
       ("icon_512x512@2x.png", Img.resize source_image 1024 1024 Resampling.lanczos),
       ("icon_1024x1024.png", Img.resize source_image 1024 1024 Resampling.lanczos)]
    ∧ (∀ p, p ∈ stagedSaves source_image →
        ∃ n, p.2 = Img.resize source_image n n Resampling.lanczos ∧ n ≤ 1024)
    ∧ (∀ p, p ∈ stagedSaves source_image → (p.2).width = (p.2).height) := by
  refine ⟨rfl, ?_, ?_⟩
  · intro p hp
    fin_cases hp <;> exact ⟨_, rfl, by norm_num⟩
  · intro p hp
    fin_cases hp <;> rfl

/-- C10 witness: the 16-pixel `@2x` entry is a direct 32 by 32 resize of the
original source image, within the 1024 bound. -/
theorem stagedSaves_resized_from_source_witness :
    (("icon_16x16@2x.png", Img.resize (Img.src 9 9) 32 32 Resampling.lanczos)
        ∈ stagedSaves (Img.src 9 9))
    ∧ ∃ n, (("icon_16x16@2x.png", Img.resize (Img.src 9 9) 32 32 Resampling.lanczos)
        : String × Img).2 = Img.resize (Img.src 9 9) n n Resampling.lanczos ∧ n ≤ 1024 :=
  ⟨by decide,
   (stagedSaves_resized_from_source (Img.src 9 9)).2.1 _ (by decide)⟩

/-- C3: for every positive size, the renderer returns an image of exactly
`size` by `size` pixels, for any host environment. -/
theorem create_claudius_icon_square (env : Env) (size : Nat) (h : 0 < size) :
    (create_claudius_icon env size).width = size
    ∧ (create_claudius_icon env size).height = size :=
  ⟨rfl, rfl⟩

/-- C3 witness: at size 7 with no fonts installed, the canvas is 7 by 7. -/
theorem create_claudius_icon_square_witness :
    0 < 7
    ∧ (create_claudius_icon ⟨fun _ => false, fun _ _ => ⟨0, 0, 0, 0⟩⟩ 7).width = 7
    ∧ (create_claudius_icon ⟨fun _ => false, fun _ _ => ⟨0, 0, 0, 0⟩⟩ 7).height = 7 :=
  ⟨by decide,
   (create_claudius_icon_square ⟨fun _ => false, fun _ _ => ⟨0, 0, 0, 0⟩⟩ 7 (by decide)).1,
   (create_claudius_icon_square ⟨fun _ => false, fun _ _ => ⟨0, 0, 0, 0⟩⟩ 7 (by decide)).2⟩

/-- C4: the background loop fills every pixel of scanline `i` with the fully
opaque color interpolated at ratio `i / size` between (88, 28, 108) and
(128, 48, 138), each channel truncated (stated as the truncation of the exact
interpolation `(start * (size - i) + end * i) / size`); the top scanline is
exactly (88, 28, 108, 255), and the bottom scanline is within one
division-rounding of the end color on every channel. -/
theorem backgroundPix_gradient (size i : Nat) (x : Int) (hs : 0 < size) (hi : i < size)
    (hx0 : 0 ≤ x) (hx1 : x < (size : Int)) :
    backgroundPix size x (i : Int)
        = ((88 * (size - i) + 128 * i) / size, (28 * (size - i) + 48 * i) / size,
           (108 * (size - i) + 138 * i) / size, 255)
    ∧ backgroundPix size x 0 = (88, 28, 108, 255)
    ∧ 128 ≤ 88 + 40 * (size - 1) / size + (40 / size + 1)
    ∧ 48 ≤ 28 + 20 * (size - 1) / size + (20 / size + 1)
    ∧ 138 ≤ 108 + 30 * (size - 1) / size + (30 / size + 1) := by
  have hcond : 0 ≤ (i : Int) ∧ (i : Int) < (size : Int) ∧ 0 ≤ x ∧ x ≤ (size : Int) := by
    omega
  have chan : ∀ a c : Nat, (a * (size - i) + (a + c) * i) / size = a + c * i / size := by
    intro a c
    obtain ⟨d, hd⟩ := Nat.exists_eq_add_of_le (le_of_lt hi)
    subst hd
    have h1 : a * (i + d - i) + (a + c) * i = c * i + (i + d) * a := by
      rw [Nat.add_sub_cancel_left]
      ring
    rw [h1]
    rw [Nat.add_mul_div_left (c * i) a (by omega : 0 < i + d)]
    omega
  refine ⟨?_, ?_, ?_, ?_, ?_⟩
  · unfold backgroundPix gradientOps
    rw [backgroundFold_eval size size x (i : Int), if_pos hcond]
    have e2 : ((i : Int)).toNat = i := by omega
    rw [e2]
    unfold gradColor
    have c1 := chan 88 40
    have c2 := chan 28 20
    have c3 := chan 108 30
    norm_num at c1 c2 c3
    rw [c1, c2, c3]
  · unfold backgroundPix gradientOps
    rw [backgroundFold_eval size size x 0]
    have hcond0 : (0 : Int) ≤ 0 ∧ (0 : Int) < (size : Int) ∧ 0 ≤ x ∧ x ≤ (size : Int) := by
      omega
    rw [if_pos hcond0]
    simp [gradColor]
  · have h40 := interp_bottom 40 size hs
    omega
  · have h20 := interp_bottom 20 size hs
    omega
  · have h30 := interp_bottom 30 size hs
    omega

/-- C4 witness: at size 3, scanline 1 of the background carries the truncated
interpolated color, the top scanline is the exact start color, and the bottom
bounds hold. -/
theorem backgroundPix_gradient_witness :
    0 < 3 ∧ 1 < 3 ∧ (0 : Int) ≤ 2 ∧ (2 : Int) < ((3 : Nat) : Int)
    ∧ (backgroundPix 3 2 ((1 : Nat) : Int)
          = ((88 * (3 - 1) + 128 * 1) / 3, (28 * (3 - 1) + 48 * 1) / 3,
             (108 * (3 - 1) + 138 * 1) / 3, 255)
       ∧ backgroundPix 3 2 0 = (88, 28, 108, 255)
       ∧ 128 ≤ 88 + 40 * (3 - 1) / 3 + (40 / 3 + 1)
       ∧ 48 ≤ 28 + 20 * (3 - 1) / 3 + (20 / 3 + 1)
       ∧ 138 ≤ 108 + 30 * (3 - 1) / 3 + (30 / 3 + 1)) :=
  ⟨by decide, by decide, by decide, by decide,
   backgroundPix_gradient 3 1 2 (by decide) (by decide) (by decide) (by decide)⟩

/-- C5: the renderer draws exactly 24 decorative dots, each recorded with
radius `size / 80`, fill (180, 145, 35) (darker gold, opaque), center on the
circle of radius `size / 2 - size / 10 - size / 15` around the image center,
at angle `i * 15 degrees - 90 degrees` (as the multiple `i * (1 / 12) - 1 / 2`
of pi): dot 0 sits at the top of the circle (cosine 0, sine -1 with the
y-axis pointing down) and each step advances the angle by 15 degrees, i.e.
clockwise in image coordinates; the dots are the final commands of the
image. -/
theorem dotOps_ring_of_24 (size i : Nat) (h : i < 24) :
    (dotOps size).length = 24
    ∧ (dotOps size).get? i = some (DrawOp.dot (size / 2) (size / 2)
        ((i : ℚ) * (1 / 12) - 1 / 2) (size / 2 - size / 10 - size / 15) (size / 80)
        (180, 145, 35, 255))
    ∧ Real.cos ((((0 : ℚ) * (1 / 12) - 1 / 2 : ℚ) : ℝ) * Real.pi) = 0
    ∧ Real.sin ((((0 : ℚ) * (1 / 12) - 1 / 2 : ℚ) : ℝ) * Real.pi) = -1
    ∧ (((i + 1 : ℚ) * (1 / 12) - 1 / 2) - ((i : ℚ) * (1 / 12) - 1 / 2) = 1 / 12)
    ∧ (∀ env : Env, ∃ pre, (create_claudius_icon env size).ops = pre ++ dotOps size) := by
  have epi : (((0 : ℚ) * (1 / 12) - 1 / 2 : ℚ) : ℝ) * Real.pi = -(Real.pi / 2) := by
    push_cast
    ring
  refine ⟨by simp [dotOps], ?_, ?_, ?_, by ring, ?_⟩
  · unfold dotOps
    rw [List.get?_map, List.get?_range h]
    simp [dark_gold]
    ring
  · rw [epi, Real.cos_neg, Real.cos_pi_div_two]
  · rw [epi, Real.sin_neg, Real.sin_pi_div_two]
  · intro env
    exact ⟨gradientOps size ++ ringOps size ++ textOps env size, rfl⟩

/-- C5 witness: at size 1024 the first dot is recorded at the image center
with distance 342, radius 12, darker gold fill and angle -90 degrees, whose
cosine is 0 and sine is -1. -/
theorem dotOps_ring_of_24_witness :
    (0 : Nat) < 24
    ∧ ((dotOps 1024).length = 24
       ∧ (dotOps 1024).get? 0 = some (DrawOp.dot (1024 / 2) (1024 / 2)
           ((0 : ℚ) * (1 / 12) - 1 / 2) (1024 / 2 - 1024 / 10 - 1024 / 15) (1024 / 80)
           (180, 145, 35, 255))
       ∧ Real.cos ((((0 : ℚ) * (1 / 12) - 1 / 2 : ℚ) : ℝ) * Real.pi) = 0
       ∧ Real.sin ((((0 : ℚ) * (1 / 12) - 1 / 2 : ℚ) : ℝ) * Real.pi) = -1
       ∧ (((0 + 1 : ℚ) * (1 / 12) - 1 / 2) - ((0 : ℚ) * (1 / 12) - 1 / 2) = 1 / 12)
       ∧ (∀ env : Env, ∃ pre, (create_claudius_icon env 1024).ops = pre ++ dotOps 1024)) :=
  ⟨by decide, dotOps_ring_of_24 1024 0 (by decide)⟩

/-- C6: font resolution is the ordered fallback chain preferred-serif,
alternate-serif, built-in default: the chain never surfaces an error (the
`Except` model always returns `ok`), in particular with no serif fonts
installed the default font is used; and the renderer issues its full command
sequence (size scanlines, 2 rings, 2 glyph draws, 24 dots) for every
environment, so the glyph is still rendered. -/
theorem resolveFont_fallback_chain (env : Env) (fsz size : Nat) :
    resolveFontE env fsz = Except.ok (resolveFont env fsz)
    ∧ resolveFont env fsz =
        (if env.hasFont timesPath then Font.truetype timesPath (fontSizeOf fsz)
         else if env.hasFont timesNewRomanPath then Font.truetype timesNewRomanPath (fontSizeOf fsz)
         else Font.default)
    ∧ (create_claudius_icon env size).ops.length = size + 28 := by
  refine ⟨?_, ?_, ?_⟩
  · unfold resolveFont resolveFontE trueTypeE catchE
    by_cases h1 : env.hasFont timesPath <;> by_cases h2 : env.hasFont timesNewRomanPath <;>
      simp [h1, h2]
  · unfold resolveFont resolveFontE trueTypeE catchE
    by_cases h1 : env.hasFont timesPath <;> by_cases h2 : env.hasFont timesNewRomanPath <;>
      simp [h1, h2]
  · show (gradientOps size ++ ringOps size ++ textOps env size ++ dotOps size).length = size + 28
    rw [List.length_append, List.length_append, List.length_append]
    have l1 : (gradientOps size).length = size := by simp [gradientOps]
    have l2 : (ringOps size).length = 2 := rfl
    have l3 : (textOps env size).length = 2 := rfl
    have l4 : (dotOps size).length = 24 := rfl
    omega

/-- C7: the glyph "C" is rendered with the font resolved at requested size
`int(0.55 * size)` (i.e. `11 * size / 20`); the measured bounding box centers
it at the image center with the fixed upward offset `size / 25`; the shadow
copy comes first, offset down-and-right by `size / 60`, in (20, 20, 20) at
alpha 200, followed by the main glyph at the unshifted position in solid gold
(212, 175, 55). -/
theorem create_claudius_icon_glyph_shadow (env : Env) (size : Nat) :
    ((create_claudius_icon env size).ops
      = gradientOps size ++ ringOps size
        ++ (let font := resolveFont env size
            let b := env.bbox font ("C")
            let tx := ((size / 2 : Nat) : Int) - Int.fdiv (b.x1 - b.x0) 2
            let ty := ((size / 2 : Nat) : Int) - Int.fdiv (b.y1 - b.y0) 2
                        - ((size / 25 : Nat) : Int)
            [DrawOp.text (tx + ((size / 60 : Nat) : Int)) (ty + ((size / 60 : Nat) : Int))
               ("C") font (20, 20, 20, 200),
             DrawOp.text tx ty ("C") font (212, 175, 55, 255)])
        ++ dotOps size)
    ∧ fontSizeOf size = 11 * size / 20 := by
  constructor
  · rfl
  · have h1 : 55 * size = 5 * (11 * size) := by ring
    have h2 : fontSizeOf size = 5 * (11 * size) / (5 * 20) := by
      unfold fontSizeOf
      rw [h1]
    rw [h2, Nat.mul_div_mul_left (11 * size) 20 (by norm_num)]

/-- C8 counterexample: the renderer is not a pure function of the size alone.
Two invocations at the same size 4, one on a host with no fonts installed and
one on a host where the preferred serif font loads, produce different images
(the glyph commands record different fonts), so the output depends on host
state beyond the size argument. -/
theorem create_claudius_icon_env_dependent :
    create_claudius_icon ⟨fun _ => false, fun _ _ => ⟨0, 0, 0, 0⟩⟩ 4
      ≠ create_claudius_icon ⟨fun p => p == timesPath, fun _ _ => ⟨0, 0, 0, 0⟩⟩ 4 := by
  decide

/-- C8 amended: the renderer is deterministic in the size together with the
resolved font and its reported bounding box for "C": any two environments
that agree on those produce identical images at every size. -/
theorem create_claudius_icon_deterministic (env1 env2 : Env) (size : Nat)
    (hf : resolveFont env1 size = resolveFont env2 size)
    (hb : env1.bbox (resolveFont env1 size) ("C") = env2.bbox (resolveFont env2 size) ("C")) :
    create_claudius_icon env1 size = create_claudius_icon env2 size := by
  simp only [create_claudius_icon, textOps]
  rw [hf] at hb ⊢
  rw [hb]

/-- C8 witness: two distinct fontless environments agree on the resolved font
and bounding box, hence render the same size-8 image. -/
theorem create_claudius_icon_deterministic_witness :
    create_claudius_icon ⟨fun _ => false, fun _ _ => ⟨0, 0, 0, 0⟩⟩ 8
      = create_claudius_icon ⟨fun p => p == ("nope"), fun _ _ => ⟨0, 0, 0, 0⟩⟩ 8 :=
  create_claudius_icon_deterministic ⟨fun _ => false, fun _ _ => ⟨0, 0, 0, 0⟩⟩
    ⟨fun p => p == ("nope"), fun _ _ => ⟨0, 0, 0, 0⟩⟩ 8 (by decide) rfl
